import Mathlib

/-!
Shallow embedding of the "Unseen Spots" discovery pipeline (src/app.py).

The program is a three-stage pipeline:
  Stage 1 (agent1_find_unseen_spots): geocode a city, run a nearby-places
    search, and keep the raw hits passing the inverse filter
    rating >= min_rating and review_count <= max_reviews and review_count > 0,
    reading rating and user_ratings_total as 0 when absent.
  Stage 2 (agent2_analyze_vibe): per candidate, fetch place details
    (reviews and url), call the language model for a structured vibe
    analysis, validate it with the pydantic schema SpotVibeAnalysis, attach
    it to the candidate dict in place, and sort the successfully analyzed
    candidates by vibe_match_score descending (Python sort: stable).
  Stage 3 (agent3_generate_narrative): on a non-empty list of top spots,
    build per-spot summaries and make one model call validated against the
    pydantic schema FinalItinerary; return None on empty input or failure.

External services (geocoding, nearby search, place details, the language
model) are modelled as oracle parameters: each call site receives the
outcome the external world would produce there, including failure outcomes
(a raised exception is a distinguished constructor).  Python dict mutation
is modelled by returning the final state of every input candidate alongside
the returned list; object identity is tracked positionally.  Python floats
(ratings) are modelled as rationals.
-/

/-- One raw hit of the nearby-places search.  Each field models the
corresponding dict key, `none` meaning the key is absent. -/
structure RawHit where
  name : Option String
  place_id : Option String
  rating : Option ℚ
  user_ratings_total : Option Nat
deriving DecidableEq, Repr

/-- A candidate dict as built by agent1 (keys name, place_id, rating,
review_count).  name and place_id hold whatever `place.get` returned,
possibly None. -/
structure Spot where
  name : Option String
  place_id : Option String
  rating : ℚ
  review_count : Nat
deriving DecidableEq, Repr

/-- The body of the agent1 loop for one raw hit: read the fields with
`place.get` defaults, apply the inverse filter `rating >= min_rating and
review_count <= max_reviews and review_count > 0`, and build the candidate
dict when it passes. -/
def agent1_filterStep (min_rating : ℚ) (max_reviews : Nat) (place : RawHit) : Option Spot :=
  let name := place.name
  let place_id := place.place_id
  let rating := place.rating.getD 0
  let review_count := place.user_ratings_total.getD 0
  if min_rating ≤ rating ∧ review_count ≤ max_reviews ∧ 0 < review_count then
    some ⟨name, place_id, rating, review_count⟩
  else
    none

/-- The agent1 loop over the raw results, appending each passing hit to
`unseen_spots` in order. -/
def agent1_loop (min_rating : ℚ) (max_reviews : Nat) : List RawHit → List Spot
  | [] => []
  | place :: rest =>
    match agent1_filterStep min_rating max_reviews place with
    | some sp => sp :: agent1_loop min_rating max_reviews rest
    | none => agent1_loop min_rating max_reviews rest

/-- Outcome of the geocoding plus nearby-search prefix of agent1: the
geocode can return no result, the search call can raise, or the search
returns a list of raw hits. -/
inductive SearchOutcome where
  | geocodeEmpty
  | searchError
  | results (raw : List RawHit)
deriving DecidableEq, Repr

/-- agent1_find_unseen_spots: on a geocode failure or a search exception it
reports and returns the empty list; otherwise it filters the raw results. -/
def agent1_find_unseen_spots (min_rating : ℚ) (max_reviews : Nat) :
    SearchOutcome → List Spot
  | .geocodeEmpty => []
  | .searchError => []
  | .results raw => agent1_loop min_rating max_reviews raw

/-- Spec-side eligibility predicate, written from the words of the spec:
rating ≥ minRating and 0 < reviewCount ≤ maxReviews, rating and reviewCount
read as 0 when absent. -/
def specEligible (minRating : ℚ) (maxReviews : Nat) (h : RawHit) : Bool :=
  decide (minRating ≤ h.rating.getD 0) &&
    decide (0 < h.user_ratings_total.getD 0) &&
    decide (h.user_ratings_total.getD 0 ≤ maxReviews)

/-- Spec-side candidate constructor for a raw hit. -/
def mkCandidate (h : RawHit) : Spot :=
  ⟨h.name, h.place_id, h.rating.getD 0, h.user_ratings_total.getD 0⟩

/-- The validated vibe analysis record (pydantic schema SpotVibeAnalysis).
The score field is a plain int: the pydantic Field carries only a
description, no numeric-range constraint. -/
structure SpotVibeAnalysis where
  vibe_adjectives : List String
  unique_features : List String
  vibe_match_score : Int
  vibe_match_justification : String
deriving DecidableEq, Repr

/-- The raw arguments of the forced function call returned by the model,
before pydantic validation: each field is present with the right type, or
missing/ill-typed (modelled as `none`). -/
structure RawVibeArgs where
  vibe_adjectives : Option (List String)
  unique_features : Option (List String)
  vibe_match_score : Option Int
  vibe_match_justification : Option String
deriving DecidableEq, Repr

/-- SpotVibeAnalysis.model_validate: pydantic checks that every declared
field is present with its declared type and otherwise raises a
ValidationError (`none`).  No field of the schema carries a range or length
constraint, so none is checked. -/
def validateVibeArgs (args : RawVibeArgs) : Option SpotVibeAnalysis :=
  match args.vibe_adjectives, args.unique_features,
      args.vibe_match_score, args.vibe_match_justification with
  | some adj, some feats, some score, some just => some ⟨adj, feats, score, just⟩
  | _, _, _, _ => none

/-- A candidate dict as it exists during and after agent2: the four agent1
keys plus the url and vibe_analysis keys, `none` meaning the key is absent
from the dict. -/
structure ASpot where
  name : Option String
  place_id : Option String
  rating : ℚ
  review_count : Nat
  url : Option String
  vibe_analysis : Option SpotVibeAnalysis
deriving DecidableEq, Repr

/-- Conversion of an agent1 candidate into its agent2 dict view (no url or
vibe_analysis key yet). -/
def toASpot (sp : Spot) : ASpot :=
  ⟨sp.name, sp.place_id, sp.rating, sp.review_count, none, none⟩

/-- Outcome of the model call for one candidate in agent2: the call can
raise, return a function call with an unexpected name, or return the
expected function call with raw arguments. -/
inductive ModelOut where
  | fail
  | wrongName
  | ok (args : RawVibeArgs)
deriving DecidableEq, Repr

/-- The external world as seen by one iteration of the agent2 loop:
`detail` is the outcome of gmaps.place (`none` = the call raised; otherwise
the review texts and the url, already defaulted to the empty string), and
`model` is the outcome of generate_content, consumed only when the review
list is non-empty. -/
structure SpotResponse where
  detail : Option (List String × String)
  model : ModelOut
deriving DecidableEq, Repr

/-- One iteration of the agent2 loop on one candidate dict: mirror of the
try block of the source.  Returns the final state of the dict (the url key
is set as soon as gmaps.place returns, before any skip) and, when every
step succeeded, the dict as appended to analyzed_spots (the same object).
Every raised exception is caught by the per-candidate except clause, so
each failure outcome simply yields no appended result. -/
def processSpot (sp : ASpot) (r : SpotResponse) : ASpot × Option ASpot :=
  match r.detail with
  | none => (sp, none)
  | some (reviews, url) =>
    let sp1 : ASpot := ⟨sp.name, sp.place_id, sp.rating, sp.review_count,
      some url, sp.vibe_analysis⟩
    if reviews = [] then (sp1, none)
    else
      match r.model with
      | .fail => (sp1, none)
      | .wrongName => (sp1, none)
      | .ok args =>
        match validateVibeArgs args with
        | none => (sp1, none)
        | some va =>
          let sp2 : ASpot := ⟨sp1.name, sp1.place_id, sp1.rating,
            sp1.review_count, sp1.url, some va⟩
          (sp2, some sp2)

/-- The agent2 loop over the candidate list: the external responses are
indexed by position (`env i` is what the world returns for the i-th
candidate, counting from `k`).  Returns the final states of all input
dicts in order, and analyzed_spots in append order. -/
def runSpots : List ASpot → (Nat → SpotResponse) → Nat → List ASpot × List ASpot
  | [], _, _ => ([], [])
  | sp :: rest, env, k =>
    let p := processSpot sp (env k)
    let q := runSpots rest env (k + 1)
    (p.1 :: q.1, p.2.toList ++ q.2)

/-- The sort key of analyzed_spots.sort: x.vibe_analysis.vibe_match_score.
Every appended spot carries a vibe_analysis; 0 is a dont-care default. -/
def scoreOf (sp : ASpot) : Int :=
  match sp.vibe_analysis with
  | some va => va.vibe_match_score
  | none => 0

/-- The ordering used by `analyzed_spots.sort(key=..., reverse=True)`:
a before b when the score of a is at least the score of b. -/
def scoreGe (a b : ASpot) : Prop := scoreOf b ≤ scoreOf a

instance : DecidableRel scoreGe := fun a b =>
  inferInstanceAs (Decidable (scoreOf b ≤ scoreOf a))

instance : IsTotal ASpot scoreGe :=
  ⟨fun a b => le_total (scoreOf b) (scoreOf a)⟩

instance : IsTrans ASpot scoreGe :=
  ⟨fun _ _ _ hab hbc => le_trans hbc hab⟩

/-- Python list.sort with key vibe_match_score and reverse=True: a stable
sort placing higher scores first, equal scores keeping their relative
order.  Insertion sort with the reflexive descending-score relation is
exactly that stable sort. -/
def sortScoreDesc (l : List ASpot) : List ASpot := l.insertionSort scoreGe

/-- agent2_analyze_vibe: run the per-candidate loop, then sort
analyzed_spots by score descending.  First component: the final states of
the input dicts (mutated in place by the loop); second component: the
returned analyzed_spots list. -/
def agent2_analyze_vibe (spots : List ASpot) (env : Nat → SpotResponse) :
    List ASpot × List ASpot :=
  let p := runSpots spots env 0
  (p.1, sortScoreDesc p.2)

/-- The in-order list of successfully analyzed spots produced by the agent2
loop, before sorting. -/
def analyzedInOrder (spots : List ASpot) (env : Nat → SpotResponse) : List ASpot :=
  (runSpots spots env 0).2

/-- Spec-side: the result of scoring candidate i in isolation; it depends
only on the i-th candidate and on the external responses for i. -/
def specSuccessAt (spots : List ASpot) (env : Nat → SpotResponse) (i : Nat) :
    Option ASpot :=
  match spots[i]? with
  | some sp => (processSpot sp (env i)).2
  | none => none

/-- One spot of the final itinerary (pydantic schema FinalItinerarySpot). -/
structure FinalItinerarySpot where
  place_name : String
  pitch_narrative : String
  google_maps_link : String
deriving DecidableEq, Repr

/-- The final itinerary (pydantic schema FinalItinerary).  itinerary_spots
is a plain list: the schema carries no length constraint. -/
structure FinalItinerary where
  itinerary_title : String
  itinerary_spots : List FinalItinerarySpot
deriving DecidableEq, Repr

/-- Raw arguments of the forced generate_itinerary call, before pydantic
validation; `none` marks a missing or ill-typed field. -/
structure RawItinArgs where
  itinerary_title : Option String
  itinerary_spots : Option (List FinalItinerarySpot)
deriving DecidableEq, Repr

/-- FinalItinerary.model_validate: both declared fields present with their
declared types; no cardinality constraint on the spot list is declared, so
none is checked. -/
def validateItinArgs (args : RawItinArgs) : Option FinalItinerary :=
  match args.itinerary_title, args.itinerary_spots with
  | some t, some sps => some ⟨t, sps⟩
  | _, _ => none

/-- Outcome of the single model call of agent3. -/
inductive ItinModelOut where
  | fail
  | wrongName
  | ok (args : RawItinArgs)
deriving DecidableEq, Repr

/-- One entry of spot_data_summary as built by agent3 from a top spot. -/
structure SpotSummary where
  name : Option String
  url : String
  rating : ℚ
  review_count : Nat
  vibe_adjectives : List String
  unique_features : List String
  vibe_justification : String
deriving DecidableEq, Repr

/-- Building one summary record: reads the url and vibe_analysis keys with
plain indexing, so a missing key raises (a KeyError, modelled as `none`).
The four agent1 keys are structure fields, always present on candidates
that agent1 built. -/
def buildSummary (sp : ASpot) : Option SpotSummary :=
  match sp.url, sp.vibe_analysis with
  | some u, some va =>
    some ⟨sp.name, u, sp.rating, sp.review_count, va.vibe_adjectives,
      va.unique_features, va.vibe_match_justification⟩
  | _, _ => none

/-- The summary loop of agent3: stops at the first KeyError. -/
def buildSummaries : List ASpot → Option (List SpotSummary)
  | [] => some []
  | sp :: rest =>
    match buildSummary sp with
    | none => none
    | some s => (buildSummaries rest).map (fun l => s :: l)

/-- agent3_generate_narrative.  Result first component: `none` models an
uncaught exception while building summaries (outside the try block);
`some r` models a normal return of r, where r is None on empty input, on a
model failure, on a wrong function name, or on validation failure (the
try/except catches those).  Second component: how many model invocations
were made. -/
def agent3_generate_narrative (top_spots : List ASpot) (city vibe : String)
    (resp : ItinModelOut) : Option (Option FinalItinerary) × Nat :=
  if top_spots = [] then (some none, 0)
  else
    match buildSummaries top_spots with
    | none => (none, 0)
    | some _ =>
      match resp with
      | .fail => (some none, 1)
      | .wrongName => (some none, 1)
      | .ok args => (some (validateItinArgs args), 1)

/-- The external world of one whole pipeline run. -/
structure RunEnv where
  search : SearchOutcome
  vibeEnv : Nat → SpotResponse
  itinResp : ItinModelOut

/-- Which stages the run-button handler invoked. -/
structure StagesRan where
  discovery : Bool
  vibeScorer : Bool
  itineraryComposer : Bool
deriving DecidableEq, Repr

/-- Terminal outcome of the run-button handler. -/
inductive RunResult where
  | inputError
  | noSpots
  | noVibes
  | itineraryFailed
  | success (itin : FinalItinerary)
  | crash
deriving DecidableEq, Repr

/-- The run-button handler: validate that city and vibe are non-empty
(Python truthiness of the text inputs), else run agent1, agent2 on a
non-empty candidate list, and agent3 on the top 3 analyzed spots. -/
def run_pipeline (city vibe : String) (min_rating : ℚ) (max_reviews : Nat)
    (env : RunEnv) : RunResult × StagesRan :=
  if city = "" ∨ vibe = "" then (.inputError, ⟨false, false, false⟩)
  else
    let unseen := agent1_find_unseen_spots min_rating max_reviews env.search
    if unseen = [] then (.noSpots, ⟨true, false, false⟩)
    else
      let analyzed := (agent2_analyze_vibe (unseen.map toASpot) env.vibeEnv).2
      if analyzed = [] then (.noVibes, ⟨true, true, false⟩)
      else
        match (agent3_generate_narrative (analyzed.take 3) city vibe env.itinResp).1 with
        | none => (.crash, ⟨true, true, true⟩)
        | some none => (.itineraryFailed, ⟨true, true, true⟩)
        | some (some itin) => (.success itin, ⟨true, true, true⟩)

lemma agent1_loop_eq (minR : ℚ) (maxR : Nat) : ∀ raw : List RawHit,
    agent1_loop minR maxR raw = (raw.filter (specEligible minR maxR)).map mkCandidate
  | [] => rfl
  | place :: rest => by
    have tail := agent1_loop_eq minR maxR rest
    by_cases hc : minR ≤ place.rating.getD 0 ∧
        place.user_ratings_total.getD 0 ≤ maxR ∧ 0 < place.user_ratings_total.getD 0
    · have h1 : agent1_filterStep minR maxR place = some (mkCandidate place) := by
        simp [agent1_filterStep, mkCandidate, hc]
      have h2 : specEligible minR maxR place = true := by
        simp only [specEligible, Bool.and_eq_true, decide_eq_true_eq]
        exact ⟨⟨hc.1, hc.2.2⟩, hc.2.1⟩
      simp [agent1_loop, h1, List.filter_cons, h2, tail]
    · have h1 : agent1_filterStep minR maxR place = none := by
        simp only [agent1_filterStep]
        rw [if_neg hc]
      have h2 : specEligible minR maxR place = false := by
        simp only [specEligible, Bool.and_eq_false_iff, decide_eq_false_iff_not,
          decide_eq_true_eq]
        tauto
      simp [agent1_loop, h1, List.filter_cons, h2, tail]

/-- Claim C1: for every raw search hit, agent1_find_unseen_spots includes a
candidate in its output if and only if the hit satisfies rating ≥ minRating
and 0 < reviewCount ≤ maxReviews (rating and reviewCount read as 0 when
absent), and the output lists the passing hits in raw-result order: the
output is exactly the eligible hits, filtered in order and converted to
candidate dicts. -/
theorem C1_agent1_iff_eligible_in_order (minR : ℚ) (maxR : Nat) (raw : List RawHit) :
    agent1_find_unseen_spots minR maxR (.results raw) =
      (raw.filter (specEligible minR maxR)).map mkCandidate :=
  agent1_loop_eq minR maxR raw

/-- Claim C6, counterexample: a raw hit with a missing name and a missing
place_id but rating 4.8 and 100 reviews is not skipped: with minRating 4.5
and maxReviews 500 agent1 constructs a candidate whose name and place_id
are both absent (None). -/
theorem C6_counterexample :
    agent1_find_unseen_spots (9/2) 500
        (.results [⟨none, none, some (24/5), some 100⟩]) =
      [⟨none, none, 24/5, 100⟩] ∧
    (Spot.mk none none (24/5) 100).name = none := by
  refine ⟨?_, rfl⟩
  show agent1_loop (9/2) 500 [⟨none, none, some (24/5), some 100⟩] = _
  have h1 : agent1_filterStep (9/2) 500 ⟨none, none, some (24/5), some 100⟩ =
      some ⟨none, none, 24/5, 100⟩ := by
    simp only [agent1_filterStep, Option.getD_some]
    rw [if_pos]
    refine ⟨by norm_num, by norm_num, by norm_num⟩
  simp [agent1_loop, h1]

/-- Claim C6 (amended): a hit whose reviewCount is absent is read as 0 and
always skipped, and a hit whose rating is absent is read as 0 and skipped
whenever minRating is positive; but a missing name or place_id never causes
a skip: the filter result is unchanged when name and place_id are erased,
and the constructed candidate then carries those fields as None. -/
theorem C6_amended_missing_field_handling (minR : ℚ) (maxR : Nat) (h : RawHit) :
    (h.user_ratings_total = none → agent1_filterStep minR maxR h = none) ∧
    (h.rating = none → 0 < minR → agent1_filterStep minR maxR h = none) ∧
    agent1_filterStep minR maxR ⟨none, none, h.rating, h.user_ratings_total⟩ =
      (agent1_filterStep minR maxR h).map
        (fun sp => ⟨none, none, sp.rating, sp.review_count⟩) := by
  refine ⟨fun hrc => ?_, fun hr hpos => ?_, ?_⟩
  · simp [agent1_filterStep, hrc]
  · have : ¬(minR ≤ h.rating.getD 0 ∧ h.user_ratings_total.getD 0 ≤ maxR ∧
        0 < h.user_ratings_total.getD 0) := by
      rw [hr]
      intro hcon
      have h0 : minR ≤ 0 := by simpa using hcon.1
      exact absurd hpos (not_lt.mpr h0)
    simp only [agent1_filterStep]
    rw [if_neg this]
  · by_cases hc : minR ≤ h.rating.getD 0 ∧ h.user_ratings_total.getD 0 ≤ maxR ∧
        0 < h.user_ratings_total.getD 0
    · simp [agent1_filterStep, hc]
    · simp only [agent1_filterStep]
      rw [if_neg hc, if_neg hc]
      rfl

theorem C6_amended_witness :
    agent1_filterStep (9/2) 500 ⟨some "A", some "p", none, some 10⟩ = none :=
  (C6_amended_missing_field_handling (9/2) 500
    ⟨some "A", some "p", none, some 10⟩).2.1 rfl (by norm_num)

/-- Claim C7: agent3_generate_narrative on an empty candidate sequence
returns None immediately, with zero model invocations, for every city and
vibe argument and whatever the model would have answered. -/
theorem C7_empty_input_null_no_model_call (city vibe : String) (resp : ItinModelOut) :
    agent3_generate_narrative [] city vibe resp = (some none, 0) := rfl

/-- Claim C8: when the city text or the vibe text is empty, the run-button
handler surfaces a validation error and invokes none of the three stages,
for every filter setting and every external world. -/
theorem C8_empty_input_runs_no_stage (city vibe : String) (minR : ℚ) (maxR : Nat)
    (env : RunEnv) (h : city = "" ∨ vibe = "") :
    run_pipeline city vibe minR maxR env = (.inputError, ⟨false, false, false⟩) := by
  unfold run_pipeline
  rw [if_pos h]

theorem C8_witness :
    run_pipeline "" "cozy cafe" (9/2) 500
        ⟨.geocodeEmpty, fun _ => ⟨none, .fail⟩, .fail⟩ =
      (.inputError, ⟨false, false, false⟩) :=
  C8_empty_input_runs_no_stage "" "cozy cafe" (9/2) 500
    ⟨.geocodeEmpty, fun _ => ⟨none, .fail⟩, .fail⟩ (Or.inl rfl)

lemma processSpot_snd_eq_fst (sp : ASpot) (r : SpotResponse) (x : ASpot)
    (h : (processSpot sp r).2 = some x) : (processSpot sp r).1 = x := by
  rcases r with ⟨detail, mo⟩
  cases detail with
  | none => exact absurd h (by simp [processSpot])
  | some p =>
    rcases p with ⟨reviews, url⟩
    by_cases hrev : reviews = []
    · exact absurd h (by simp [processSpot, hrev])
    · cases mo with
      | fail => exact absurd h (by simp [processSpot, hrev])
      | wrongName => exact absurd h (by simp [processSpot, hrev])
      | ok args =>
        cases hv : validateVibeArgs args with
        | none => exact absurd h (by simp [processSpot, hrev, hv])
        | some va =>
          have h2 := h
          simp only [processSpot, hrev, if_neg, ite_false, hv] at h2 ⊢
          simp_all

lemma processSpot_snd_shape (sp : ASpot) (r : SpotResponse) (x : ASpot)
    (h : (processSpot sp r).2 = some x) :
    x.url.isSome ∧ x.vibe_analysis.isSome := by
  rcases r with ⟨detail, mo⟩
  cases detail with
  | none => exact absurd h (by simp [processSpot])
  | some p =>
    rcases p with ⟨reviews, url⟩
    by_cases hrev : reviews = []
    · exact absurd h (by simp [processSpot, hrev])
    · cases mo with
      | fail => exact absurd h (by simp [processSpot, hrev])
      | wrongName => exact absurd h (by simp [processSpot, hrev])
      | ok args =>
        cases hv : validateVibeArgs args with
        | none => exact absurd h (by simp [processSpot, hrev, hv])
        | some va =>
          simp only [processSpot, hrev, if_neg, ite_false, hv, Option.some.injEq] at h
          subst h
          simp

lemma processSpot_detail_url (sp : ASpot) (r : SpotResponse) (revs : List String)
    (url : String) (h : r.detail = some (revs, url)) :
    ((processSpot sp r).1).url = some url ∧
    ((processSpot sp r).1).name = sp.name ∧
    ((processSpot sp r).1).place_id = sp.place_id ∧
    (revs = [] → (processSpot sp r).2 = none) := by
  rcases r with ⟨detail, mo⟩
  simp only at h
  subst h
  by_cases hrev : revs = []
  · simp [processSpot, hrev]
  · cases mo with
    | fail => simp [processSpot, hrev]
    | wrongName => simp [processSpot, hrev]
    | ok args =>
      cases hv : validateVibeArgs args with
      | none => simp [processSpot, hrev, hv]
      | some va => simp [processSpot, hrev, hv]

lemma runSpots_fst_length (env : Nat → SpotResponse) :
    ∀ (spots : List ASpot) (k : Nat), (runSpots spots env k).1.length = spots.length
  | [], _ => rfl
  | sp :: rest, k => by
    simp [runSpots, runSpots_fst_length env rest (k + 1)]

lemma runSpots_snd_subset_fst (env : Nat → SpotResponse) :
    ∀ (spots : List ASpot) (k : Nat) (x : ASpot),
      x ∈ (runSpots spots env k).2 → x ∈ (runSpots spots env k).1
  | [], _, x, hx => by simp [runSpots] at hx
  | sp :: rest, k, x, hx => by
    simp only [runSpots, List.mem_append, List.mem_cons] at hx ⊢
    rcases hx with hx | hx
    · left
      cases hp : (processSpot sp (env k)).2 with
      | none => rw [hp] at hx; simp at hx
      | some y =>
        rw [hp] at hx
        simp at hx
        subst hx
        exact (processSpot_snd_eq_fst _ _ _ hp).symm
    · right
      exact runSpots_snd_subset_fst env rest (k + 1) x hx

lemma runSpots_snd_shape (env : Nat → SpotResponse) :
    ∀ (spots : List ASpot) (k : Nat) (x : ASpot),
      x ∈ (runSpots spots env k).2 → x.url.isSome ∧ x.vibe_analysis.isSome
  | [], _, x, hx => by simp [runSpots] at hx
  | sp :: rest, k, x, hx => by
    simp only [runSpots, List.mem_append] at hx
    rcases hx with hx | hx
    · cases hp : (processSpot sp (env k)).2 with
      | none => rw [hp] at hx; simp at hx
      | some y =>
        rw [hp] at hx
        simp at hx
        subst hx
        exact processSpot_snd_shape _ _ _ hp
    · exact runSpots_snd_shape env rest (k + 1) x hx

lemma runSpots_fst_get (env : Nat → SpotResponse) :
    ∀ (spots : List ASpot) (k i : Nat) (sp : ASpot), spots[i]? = some sp →
      (runSpots spots env k).1[i]? = some (processSpot sp (env (k + i))).1
  | [], _, i, sp, h => by simp at h
  | sp0 :: rest, k, 0, sp, h => by
    simp only [List.getElem?_cons_zero, Option.some.injEq] at h
    subst h
    simp [runSpots]
  | sp0 :: rest, k, i + 1, sp, h => by
    simp only [List.getElem?_cons_succ] at h
    have e : k + (i + 1) = (k + 1) + i := by omega
    rw [e]
    simpa [runSpots] using runSpots_fst_get env rest (k + 1) i sp h

lemma runSpots_snd_eq (env : Nat → SpotResponse) :
    ∀ (spots : List ASpot) (k : Nat),
      (runSpots spots env k).2 =
        (List.range spots.length).filterMap
          (fun i => match spots[i]? with
            | some sp => (processSpot sp (env (k + i))).2
            | none => none)
  | [], _ => rfl
  | sp :: rest, k => by
    have ih := runSpots_snd_eq env rest (k + 1)
    simp only [runSpots, List.length_cons, List.range_succ_eq_map,
      List.filterMap_cons, List.filterMap_map]
    have congrTail :
        (List.filterMap ((fun i =>
            match (sp :: rest)[i]? with
            | some s => (processSpot s (env (k + i))).2
            | none => none) ∘ Nat.succ) (List.range rest.length)) =
          (List.filterMap (fun i =>
            match rest[i]? with
            | some s => (processSpot s (env (k + 1 + i))).2
            | none => none) (List.range rest.length)) := by
      apply List.filterMap_congr
      intro i _
      have e : k + (i + 1) = k + 1 + i := by omega
      simp only [Function.comp_apply, Nat.succ_eq_add_one, List.getElem?_cons_succ, e]
    rw [congrTail, ← ih]
    simp only [List.getElem?_cons_zero, Nat.add_zero]
    cases hp : (processSpot sp (env k)).2 with
    | none => simp
    | some y => simp

lemma analyzedInOrder_eq (spots : List ASpot) (env : Nat → SpotResponse) :
    analyzedInOrder spots env =
      (List.range spots.length).filterMap (specSuccessAt spots env) := by
  rw [analyzedInOrder, runSpots_snd_eq]
  apply List.filterMap_congr
  intro i _
  simp only [specSuccessAt, Nat.zero_add]

lemma filter_orderedInsert_score (s : Int) (x : ASpot) :
    ∀ l : List ASpot,
      (List.orderedInsert scoreGe x l).filter (fun sp => scoreOf sp == s) =
        (x :: l).filter (fun sp => scoreOf sp == s)
  | [] => rfl
  | y :: ys => by
    by_cases h : scoreGe x y
    · rw [List.orderedInsert, if_pos h]
    · rw [List.orderedInsert, if_neg h]
      have ih := filter_orderedInsert_score s x ys
      by_cases hx : scoreOf x = s
      · have hy : ¬(scoreOf y = s) := by
          intro hy
          exact h (by rw [scoreGe, hx, hy])
        simp only [List.filter_cons, ih]
        simp [hx, hy]
      · simp only [List.filter_cons, ih]
        simp [hx]

lemma filter_insertionSort_score (s : Int) :
    ∀ l : List ASpot,
      (List.insertionSort scoreGe l).filter (fun sp => scoreOf sp == s) =
        l.filter (fun sp => scoreOf sp == s)
  | [] => rfl
  | x :: xs => by
    rw [List.insertionSort, filter_orderedInsert_score]
    have ih := filter_insertionSort_score s xs
    by_cases hx : scoreOf x = s
    · simp [List.filter_cons, hx, ih]
    · simp [List.filter_cons, hx, ih]

/-- Claim C2: the agent2 output is a permutation of the in-order list of
input candidates whose scoring succeeded (and that list is pointwise: the
success and the resulting record at each position depend only on that
candidate and its own external responses); the output is pairwise ordered
by vibe_match_score descending; and candidates of equal score keep their
original relative order (for each score, the filter of the output equals
the filter of the in-order success list). -/
theorem C2_output_sorted_stable_successes (spots : List ASpot)
    (env : Nat → SpotResponse) :
    analyzedInOrder spots env =
        (List.range spots.length).filterMap (specSuccessAt spots env) ∧
    ((agent2_analyze_vibe spots env).2).Perm (analyzedInOrder spots env) ∧
    ((agent2_analyze_vibe spots env).2).Pairwise
      (fun a b => scoreOf b ≤ scoreOf a) ∧
    ∀ s : Int,
      ((agent2_analyze_vibe spots env).2).filter (fun sp => scoreOf sp == s) =
        (analyzedInOrder spots env).filter (fun sp => scoreOf sp == s) := by
  refine ⟨analyzedInOrder_eq spots env, ?_, ?_, ?_⟩
  · exact List.perm_insertionSort scoreGe _
  · exact List.sorted_insertionSort scoreGe _
  · intro s
    exact filter_insertionSort_score s _

/-- Claim C5: per-candidate failure isolation in agent2: whenever scoring
candidate i succeeds in isolation (whatever the external world does at
every other candidate, including arbitrary detail-fetch, model-call and
validation failures), its result appears in the output, and the loop still
processes the whole input list (the final-state list keeps its length).
No per-candidate error aborts the stage: agent2 is a total function of the
response environment. -/
theorem C5_per_candidate_failure_isolated (spots : List ASpot)
    (env : Nat → SpotResponse) (i : Nat) (sp : ASpot)
    (h : specSuccessAt spots env i = some sp) :
    sp ∈ (agent2_analyze_vibe spots env).2 ∧
    (agent2_analyze_vibe spots env).1.length = spots.length := by
  constructor
  · have hi : i < spots.length := by
      rw [specSuccessAt] at h
      cases hsp : spots[i]? with
      | none => rw [hsp] at h; simp at h
      | some sp0 => exact (List.getElem?_eq_some.mp hsp).1
    have hmem : sp ∈ analyzedInOrder spots env := by
      rw [analyzedInOrder_eq, List.mem_filterMap]
      exact ⟨i, List.mem_range.mpr hi, h⟩
    have hperm : ((agent2_analyze_vibe spots env).2).Perm (analyzedInOrder spots env) :=
      List.perm_insertionSort scoreGe _
    exact hperm.mem_iff.mpr hmem
  · exact runSpots_fst_length env spots 0

theorem C5_witness :
    (ASpot.mk (some "B") (some "p2") (24/5) 10 (some "u")
        (some ⟨["a", "b", "c"], [], 7, "j"⟩)) ∈
      (agent2_analyze_vibe
        [⟨some "A", some "p1", 24/5, 100, none, none⟩,
         ⟨some "B", some "p2", 24/5, 10, none, none⟩]
        (fun i => if i = 0 then ⟨none, .fail⟩
          else ⟨some (["r"], "u"),
            .ok ⟨some ["a", "b", "c"], some [], some 7, some "j"⟩⟩)).2 :=
  (C5_per_candidate_failure_isolated
    [⟨some "A", some "p1", 24/5, 100, none, none⟩,
     ⟨some "B", some "p2", 24/5, 10, none, none⟩]
    (fun i => if i = 0 then ⟨none, .fail⟩
      else ⟨some (["r"], "u"),
        .ok ⟨some ["a", "b", "c"], some [], some 7, some "j"⟩⟩)
    1
    (ASpot.mk (some "B") (some "p2") (24/5) 10 (some "u")
      (some ⟨["a", "b", "c"], [], 7, "j"⟩))
    rfl).1

/-- Claim C3, counterexample: the model returns a vibe_match_score of 11
for a candidate; validation accepts it (the schema field carries no range
constraint) and agent2 outputs the candidate with score 11, which is not
in the range 1 to 10. -/
theorem C3_counterexample :
    ((agent2_analyze_vibe
        [⟨some "A", some "p1", 24/5, 100, none, none⟩]
        (fun _ => ⟨some (["nice"], "u"),
          .ok ⟨some ["a", "b", "c"], some [], some 11, some "j"⟩⟩)).2).map scoreOf
      = [11] ∧ ¬((11 : Int) ≤ 10) :=
  ⟨rfl, by norm_num⟩

lemma agent2_output_analysis_isSome (spots : List ASpot)
    (env : Nat → SpotResponse) (sp : ASpot)
    (hsp : sp ∈ (agent2_analyze_vibe spots env).2) :
    sp.url.isSome ∧ sp.vibe_analysis.isSome := by
  have hperm : ((agent2_analyze_vibe spots env).2).Perm ((runSpots spots env 0).2) :=
    List.perm_insertionSort scoreGe _
  exact runSpots_snd_shape env spots 0 sp (hperm.mem_iff.mp hsp)

/-- Claim C3 (amended): validation checks exactly that every schema field
is present with its declared type (an integer for the score); it enforces
no 1 to 10 range, and on success it attaches exactly the integer the model
returned; a validation failure skips the candidate, so every candidate in
the output carries a fully populated analysis record, whose score is an
integer but possibly outside 1 to 10. -/
theorem C3_amended_validation_checks_types_only (spots : List ASpot)
    (env : Nat → SpotResponse) (args : RawVibeArgs) :
    ((validateVibeArgs args).isSome ↔
      (args.vibe_adjectives.isSome ∧ args.unique_features.isSome ∧
       args.vibe_match_score.isSome ∧ args.vibe_match_justification.isSome)) ∧
    (∀ va, validateVibeArgs args = some va →
      args.vibe_match_score = some va.vibe_match_score) ∧
    ∀ sp ∈ (agent2_analyze_vibe spots env).2, sp.vibe_analysis.isSome := by
  refine ⟨?_, ?_, ?_⟩
  · rcases args with ⟨a, f, s, j⟩
    cases a <;> cases f <;> cases s <;> cases j <;> simp [validateVibeArgs]
  · intro va hva
    rcases args with ⟨a, f, s, j⟩
    cases a <;> cases f <;> cases s <;> cases j <;>
      simp [validateVibeArgs] at hva ⊢
    rw [← hva]
  · intro sp hsp
    exact (agent2_output_analysis_isSome spots env sp hsp).2

theorem C3_amended_witness :
    (RawVibeArgs.mk (some ["a", "b", "c"]) (some []) (some 11)
        (some "j")).vibe_match_score =
      some (SpotVibeAnalysis.mk ["a", "b", "c"] [] 11 "j").vibe_match_score :=
  (C3_amended_validation_checks_types_only [] (fun _ => ⟨none, .fail⟩)
    ⟨some ["a", "b", "c"], some [], some 11, some "j"⟩).2.1
    ⟨["a", "b", "c"], [], 11, "j"⟩ rfl

lemma buildSummaries_isSome :
    ∀ l : List ASpot, (∀ sp ∈ l, sp.url.isSome ∧ sp.vibe_analysis.isSome) →
      (buildSummaries l).isSome
  | [], _ => by simp [buildSummaries]
  | sp :: rest, hall => by
    obtain ⟨hu, hva⟩ := hall sp (List.mem_cons_self sp rest)
    obtain ⟨u, hu⟩ := Option.isSome_iff_exists.mp hu
    obtain ⟨va, hva⟩ := Option.isSome_iff_exists.mp hva
    have ih := buildSummaries_isSome rest (fun x hx => hall x (List.mem_cons_of_mem _ hx))
    obtain ⟨ls, hls⟩ := Option.isSome_iff_exists.mp ih
    simp [buildSummaries, buildSummary, hu, hva, hls]

/-- Claim C9: every element of the agent2 output carries the url key and a
fully populated vibe_analysis record, so the per-spot summary construction
of agent3 raises no key-lookup error on any prefix of that output. -/
theorem C9_output_keys_complete_summary_safe (spots : List ASpot)
    (env : Nat → SpotResponse) :
    (∀ sp ∈ (agent2_analyze_vibe spots env).2,
      sp.url.isSome ∧ sp.vibe_analysis.isSome) ∧
    ∀ n : Nat, (buildSummaries ((agent2_analyze_vibe spots env).2.take n)).isSome := by
  refine ⟨agent2_output_analysis_isSome spots env, fun n => ?_⟩
  exact buildSummaries_isSome _
    (fun sp hsp => agent2_output_analysis_isSome spots env sp (List.take_subset n _ hsp))

theorem C9_witness :
    (buildSummaries
      ((agent2_analyze_vibe
        [⟨some "A", some "p1", 24/5, 100, none, none⟩]
        (fun _ => ⟨some (["nice"], "u"),
          .ok ⟨some ["a", "b", "c"], some [], some 9, some "j"⟩⟩)).2.take 3)).isSome :=
  (C9_output_keys_complete_summary_safe
    [⟨some "A", some "p1", 24/5, 100, none, none⟩]
    (fun _ => ⟨some (["nice"], "u"),
      .ok ⟨some ["a", "b", "c"], some [], some 9, some "j"⟩⟩)).2 3

/-- Claim C10: agent2 mutates its input candidate dicts in place: every
returned candidate is (the final state of) one of the input dicts; and for
any candidate whose detail fetch returns, the url key is set on its final
state even when the candidate is subsequently skipped, in particular when
the fetch returned no reviews, in which case it contributes nothing to the
output. -/
theorem C10_mutation_in_place (spots : List ASpot) (env : Nat → SpotResponse) :
    (∀ sp ∈ (agent2_analyze_vibe spots env).2,
      sp ∈ (agent2_analyze_vibe spots env).1) ∧
    ∀ i sp revs url, spots[i]? = some sp → (env i).detail = some (revs, url) →
      (agent2_analyze_vibe spots env).1[i]? = some (processSpot sp (env i)).1 ∧
      ((processSpot sp (env i)).1).url = some url ∧
      ((processSpot sp (env i)).1).name = sp.name ∧
      ((processSpot sp (env i)).1).place_id = sp.place_id ∧
      (revs = [] → (processSpot sp (env i)).2 = none) := by
  constructor
  · intro sp hsp
    have hperm : ((agent2_analyze_vibe spots env).2).Perm ((runSpots spots env 0).2) :=
      List.perm_insertionSort scoreGe _
    exact runSpots_snd_subset_fst env spots 0 sp (hperm.mem_iff.mp hsp)
  · intro i sp revs url hsp hdet
    have hget := runSpots_fst_get env spots 0 i sp hsp
    rw [Nat.zero_add] at hget
    have hd := processSpot_detail_url sp (env i) revs url hdet
    exact ⟨hget, hd.1, hd.2.1, hd.2.2.1, hd.2.2.2⟩

theorem C10_witness :
    ((processSpot ⟨some "A", some "p1", 24/5, 100, none, none⟩
        ⟨some ([], "u"), ModelOut.fail⟩).1).url = some "u" ∧
    (processSpot ⟨some "A", some "p1", 24/5, 100, none, none⟩
        ⟨some ([], "u"), ModelOut.fail⟩).2 = none :=
  ⟨((C10_mutation_in_place
      [⟨some "A", some "p1", 24/5, 100, none, none⟩]
      (fun _ => ⟨some ([], "u"), ModelOut.fail⟩)).2 0
      ⟨some "A", some "p1", 24/5, 100, none, none⟩ [] "u" rfl rfl).2.1,
   ((C10_mutation_in_place
      [⟨some "A", some "p1", 24/5, 100, none, none⟩]
      (fun _ => ⟨some ([], "u"), ModelOut.fail⟩)).2 0
      ⟨some "A", some "p1", 24/5, 100, none, none⟩ [] "u" rfl rfl).2.2.2.2 rfl⟩

/-- Claim C4, counterexample: agent3 is called with three candidates, the
model returns a schema-conforming itinerary carrying a single spot, and
agent3 returns that itinerary non-null: the returned itinerary_spots has
length 1, not 3.  The schema places no length constraint on the list. -/
theorem C4_counterexample :
    (agent3_generate_narrative
        [⟨some "A", some "p1", 24/5, 100, some "u1", some ⟨["a", "b", "c"], [], 9, "j"⟩⟩,
         ⟨some "B", some "p2", 24/5, 90, some "u2", some ⟨["d", "e", "f"], [], 8, "k"⟩⟩,
         ⟨some "C", some "p3", 24/5, 80, some "u3", some ⟨["g", "h", "i"], [], 7, "l"⟩⟩]
        "Lisbon" "cozy cafe"
        (.ok ⟨some "T", some [⟨"P", "N", "L"⟩]⟩)).1 =
      some (some ⟨"T", [⟨"P", "N", "L"⟩]⟩) ∧
    (FinalItinerary.mk "T" [⟨"P", "N", "L"⟩]).itinerary_spots.length = 1 ∧
    ([⟨some "A", some "p1", 24/5, 100, some "u1", some ⟨["a", "b", "c"], [], 9, "j"⟩⟩,
      ⟨some "B", some "p2", 24/5, 90, some "u2", some ⟨["d", "e", "f"], [], 8, "k"⟩⟩,
      ⟨some "C", some "p3", 24/5, 80, some "u3", some ⟨["g", "h", "i"], [], 7, "l"⟩⟩] :
        List ASpot).length = 3 :=
  ⟨rfl, rfl, rfl⟩

/-- Claim C4 (amended): when agent3 returns a non-null itinerary from a
model reply with arguments args, the returned itinerary is exactly the
validated model value: its title and its spot list are the ones the model
supplied, whose length the schema does not tie to the number of input
candidates. -/
theorem C4_amended_spots_are_model_list (tops : List ASpot) (city vibe : String)
    (args : RawItinArgs) (itin : FinalItinerary)
    (h : (agent3_generate_narrative tops city vibe (.ok args)).1 = some (some itin)) :
    args.itinerary_title = some itin.itinerary_title ∧
    args.itinerary_spots = some itin.itinerary_spots := by
  unfold agent3_generate_narrative at h
  by_cases ht : tops = []
  · rw [if_pos ht] at h
    simp at h
  · rw [if_neg ht] at h
    cases hbs : buildSummaries tops with
    | none => rw [hbs] at h; simp at h
    | some s =>
      rw [hbs] at h
      simp only [Option.some.injEq] at h
      rcases args with ⟨t, sps⟩
      cases t with
      | none => simp [validateItinArgs] at h
      | some t0 =>
        cases sps with
        | none => simp [validateItinArgs] at h
        | some sps0 =>
          simp only [validateItinArgs, Option.some.injEq] at h
          rw [← h]
          exact ⟨rfl, rfl⟩

theorem C4_amended_witness :
    (RawItinArgs.mk (some "T") (some [⟨"P", "N", "L"⟩])).itinerary_title =
        some (FinalItinerary.mk "T" [⟨"P", "N", "L"⟩]).itinerary_title ∧
    (RawItinArgs.mk (some "T") (some [⟨"P", "N", "L"⟩])).itinerary_spots =
        some (FinalItinerary.mk "T" [⟨"P", "N", "L"⟩]).itinerary_spots :=
  C4_amended_spots_are_model_list
    [⟨some "A", some "p1", 24/5, 100, some "u1", some ⟨["a", "b", "c"], [], 9, "j"⟩⟩]
    "Lisbon" "cozy cafe" ⟨some "T", some [⟨"P", "N", "L"⟩]⟩
    ⟨"T", [⟨"P", "N", "L"⟩]⟩ rfl
